import Mathlib

/-!
Verification development for the `asyncgist` library (a thin asynchronous
client for the GitHub Gists REST API).

The definitions below are a shallow embedding of the Python sources
`asyncgist/client.py`, `asyncgist/models.py` and `asyncgist/exceptions.py`:
pure computations become Lean functions, JSON values become an inductive
type, and Python exceptions become `Except` results.  Each definition's doc
comment points to the lines of the source it embeds.
-/

namespace Asyncgist

/-- JSON values as passed between the client and the GitHub API.
Numbers are modelled as integers (ids, sizes and page numbers are the only
numbers the library touches). -/
inductive Json where
  | null
  | bool (b : Bool)
  | int (n : Int)
  | str (s : String)
  | arr (items : List Json)
  | obj (fields : List (String × Json))

/-- Python truthiness (`bool(v)`) for the JSON values above: `None`, `False`,
`0`, `""`, `[]` and an empty dict are falsy, everything else is truthy. -/
def pyTruthy : Json → Bool
  | .null => false
  | .bool b => b
  | .int n => n != 0
  | .str s => s != ""
  | .arr items => !items.isEmpty
  | .obj fields => !fields.isEmpty

/-- Embeds Python `data.get(k)` on a JSON object: the value of the first
binding of `k`, and `None` (here `Json.null`) when the key is absent. -/
def dataGet (data : List (String × Json)) (k : String) : Json :=
  (List.lookup k data).getD Json.null

/-- Python runtime errors raised by the embedded code.  The library's own
error classes are modelled separately (`HTTPExeption` below); `TypeError`
covers both the explicit `raise TypeError(...)` in `models.py` and the
`TypeError`s the Python runtime raises for bad calls and bad operands. -/
inductive PyError where
  | typeError (msg : String)
deriving DecidableEq

/-- Python positional-call check.  Every parameter of the modelled
functions is required, so a Python call succeeds exactly when the number of
positional arguments equals the number of positional parameters; otherwise
the runtime raises a `TypeError` before the body runs. -/
def pyCallArgs {A : Type} (param_count arg_count : Nat) (result : A) : Except PyError A :=
  if arg_count = param_count then .ok result
  else .error (.typeError "positional argument count mismatch")

/-! ## Identifier normalizer (client.py:9-13) -/

/-- Whether the character list starts with the given pattern. -/
def startsWithL : List Char → List Char → Bool
  | _, [] => true
  | [], _ :: _ => false
  | c :: cs, p :: ps => c == p && startsWithL cs ps

/-- Embeds the regex fragment `.+` used as a prefix match: it consumes one
or more characters, and `.` matches any character except a newline, so a
prefix match succeeds exactly when the first remaining character exists and
is not a newline. -/
def dotPlus : List Char → Bool
  | [] => false
  | c :: _ => c != '\n'

/-- Embeds the tail `(?:www\.)?.+` of `URL_REGEX` (client.py:9) at the
position just after `http://` or `https://`: the optional group is tried
with `www.` consumed and, failing that, with nothing consumed. -/
def regexTail (r : List Char) : Bool :=
  (startsWithL r ['w', 'w', 'w', '.'] && dotPlus (r.drop 4)) || dotPlus r

/-- Embeds `URL_REGEX.match(s)` for
`URL_REGEX = re.compile(r"https?://(?:www\.)?.+")` (client.py:9):
`re.match` anchors at the start of the string only, so the string must
begin with `http://` or `https://` and the rest must satisfy `regexTail`. -/
def urlRegexMatch (s : String) : Bool :=
  (startsWithL s.toList ['h', 't', 't', 'p', ':', '/', '/'] && regexTail (s.toList.drop 7))
  || (startsWithL s.toList ['h', 't', 't', 'p', 's', ':', '/', '/'] && regexTail (s.toList.drop 8))

/-- Embeds Python `str.split("/")` on the character list of the string:
splitting on every `'/'`, keeping empty components (so a trailing slash
yields a final empty component). -/
def splitSlash : List Char → List (List Char)
  | [] => [[]]
  | c :: cs =>
    if c = '/' then [] :: splitSlash cs
    else (c :: (splitSlash cs).headD []) :: (splitSlash cs).tail

/-- Embeds `convert` (client.py:12-13):
`id_or_url.split("/")[-1] if URL_REGEX.match(id_or_url) else id_or_url`.
`[-1]` is the last component of the split, empty components included. -/
def convert (id_or_url : String) : String :=
  if urlRegexMatch id_or_url then String.mk ((splitSlash id_or_url.toList).getLastD [])
  else id_or_url

/-- Definition following the specification's words in section 4.1: "split on
`/`, use the last non-empty component".  Stated for comparison with
`convert`, which the source defines differently. -/
def lastNonEmptySegmentSpec (s : String) : String :=
  String.mk (((splitSlash s.toList).filter (fun seg => !seg.isEmpty)).getLastD [])

/-! ## Models (models.py) -/

/-- Embeds `File` (models.py:8-42): `filename` and `content` are required
keyword arguments of `File.__init__`, the remaining fields default to
`None`. -/
structure File where
  filename : String
  content : String
  type : Option String
  language : Option String
  raw_url : Option String
  size : Option Int
deriving DecidableEq

/-- Embeds the `Union[File, List[File]]` argument accepted by `post_gist`
and `update_gist` (client.py:77, client.py:105). -/
inductive FilesArg where
  | one (f : File)
  | many (fs : List File)
deriving DecidableEq

/-- Embeds the `if not isinstance(files, list): files = [files]`
normalization (client.py:97-98 and client.py:129-130). -/
def FilesArg.toList : FilesArg → List File
  | .one f => [f]
  | .many fs => fs

/-- Python dict insertion on a string-keyed dict modelled as an association
list: inserting an existing key overwrites its value in place (the key
keeps its original position), inserting a new key appends it. -/
def dictInsert (d : List (String × Json)) (k : String) (v : Json) : List (String × Json) :=
  if d.any (fun p => p.1 == k) then d.map (fun p => if p.1 == k then (k, v) else p)
  else d ++ [(k, v)]

/-- Embeds the dict comprehension
`{f.filename: {"content": f.content} for f in files}`
(client.py:99 and client.py:131): the files are inserted left to right into
a fresh dict, so a repeated filename keeps one entry whose value comes from
the last file bearing that name. -/
def filesToPayload (files : List File) : List (String × Json) :=
  files.foldl (fun d f => dictInsert d f.filename (Json.obj [("content", Json.str f.content)])) []

/-- Embeds the files mapping `post_gist` sends (client.py:97-99) after
normalizing its `Union[File, List[File]]` argument. -/
def post_gist_files (files : FilesArg) : List (String × Json) :=
  filesToPayload files.toList

/-- Embeds the full `post_gist` payload
`data = {"public": public, "files": files, "description": description}`
(client.py:101). -/
def post_gist_data (description : String) (files : FilesArg) (public : Bool) :
    List (String × Json) :=
  [("public", Json.bool public), ("files", Json.obj (post_gist_files files)),
    ("description", Json.str description)]

/-- Whether a JSON value is hashable as a Python dict key: lists and dicts
are unhashable, scalars are hashable. -/
def jsonHashable : Json → Bool
  | .arr _ => false
  | .obj _ => false
  | _ => true

/-- Evaluates a Python dict display whose keys may be arbitrary values: the
runtime raises `TypeError` when any key is unhashable. -/
def mkPyDict (entries : List (Json × Json)) : Except PyError (List (Json × Json)) :=
  if entries.all (fun e => jsonHashable e.1) then .ok entries
  else .error (.typeError "unhashable type")

/-- Embeds the `update_gist` payload construction
`data = {"description": description, files: files}` (client.py:132).  The
second entry uses the local variable `files` — at that point the dict built
on client.py:131 — as the dict key, not the string literal `"files"`. -/
def update_gist_data (description : String) (files : FilesArg) :
    Except PyError (List (Json × Json)) :=
  mkPyDict [(Json.str "description", Json.str description),
    (Json.obj (filesToPayload files.toList), Json.obj (filesToPayload files.toList))]

/-- Embeds the id-presence guard of `Gist.__init__` (models.py:131-135):
`if not data.get("id"): raise TypeError("Gist data must have an id.")`.
On a truthy id the constructor proceeds to field decoding (`_set`), which
no claim inspects; that branch is `.ok ()`. -/
def Gist_init (data : List (String × Json)) : Except PyError Unit :=
  if !pyTruthy (dataGet data "id") then .error (.typeError "Gist data must have an id.")
  else .ok ()

/-- Embeds the id-presence guard of `Comment.__init__` (models.py:285-289):
`if not data.get("id"): raise TypeError("Comment data must have an id.")`,
with the same shape as `Gist_init`. -/
def Comment_init (data : List (String × Json)) : Except PyError Unit :=
  if !pyTruthy (dataGet data "id") then .error (.typeError "Comment data must have an id.")
  else .ok ()

/-! ## Error taxonomy and dispatcher (exceptions.py, client.py:43-75) -/

/-- Embeds `HTTPExeption` (exceptions.py:10-26, the source spells it
without the `c`): the data every raised HTTP failure carries. -/
structure HTTPExeption where
  status : Nat
  reason : String
  text : String
deriving DecidableEq

/-- The typed failures `Client.request` can raise: `NotFound` and
`Forbidden` (exceptions.py:29-34) subclass `HTTPExeption` and add no
fields, so each constructor carries the same payload. -/
inductive RequestError where
  | notFound (e : HTTPExeption)
  | forbidden (e : HTTPExeption)
  | httpExeption (e : HTTPExeption)
deriving DecidableEq

/-- Embeds `Client.request` (client.py:43-75) as a function of the response
the server produced.  `status`, `reason` and `text` are the response status
code, reason phrase and body text; `jsonResult` is the outcome of
`await resp.json()` inside the `try` block — `some` the decoded document,
or `none` when decoding raised (the `except` branch sets `item = None`).
The source checks `300 > resp.status >= 200` first, then `status == 404`,
then `status == 403`, and otherwise raises `HTTPExeption`. -/
def request (status : Nat) (reason text : String) (jsonResult : Option Json) :
    Except RequestError (Option Json) :=
  if 200 ≤ status ∧ status < 300 then .ok jsonResult
  else if status = 404 then .error (.notFound ⟨status, reason, text⟩)
  else if status = 403 then .error (.forbidden ⟨status, reason, text⟩)
  else .error (.httpExeption ⟨status, reason, text⟩)

/-! ## Client facade (client.py:16-21 and client.py:136-333) -/

/-- Embeds `Request` (client.py:16-21): the method and the path appended to
`GIST_URL`. -/
structure Request where
  method : String
  path : String
deriving DecidableEq

/-- Embeds `GIST_URL` (client.py:8). -/
def GIST_URL : String := "https://api.github.com/gists"

/-- Embeds the url computed on client.py:20. -/
def Request.url (r : Request) : String := GIST_URL ++ r.path

/-- Number of positional parameters (besides `self`) of `Client.request`
(client.py:43): `request`; the payload must go through `**kwargs`. -/
def request_positional_params : Nat := 1

/-- Number of positional parameters (besides `self`) of `Comment.__init__`
(models.py:285): `client` and `data`. -/
def Comment_init_positional_params : Nat := 2

/-- Embeds the request built by `fetch_gist` (client.py:136-158):
`Request("GET", f"/{gist_id}")` with `gist_id = convert(id_or_url)`. -/
def fetch_gist_request (id_or_url : String) : Request :=
  ⟨"GET", "/" ++ convert id_or_url⟩

/-- Embeds the request built by `delete_gist` (client.py:160-170). -/
def delete_gist_request (id_or_url : String) : Request :=
  ⟨"DELETE", "/" ++ convert id_or_url⟩

/-- Embeds the request built by `star_gist` (client.py:172-182). -/
def star_gist_request (id_or_url : String) : Request :=
  ⟨"PUT", "/" ++ convert id_or_url ++ "/star"⟩

/-- Embeds the request built by `unstar_gist` (client.py:184-194). -/
def unstar_gist_request (id_or_url : String) : Request :=
  ⟨"DELETE", "/" ++ convert id_or_url ++ "/star"⟩

/-- Embeds the request built by `fork_gist` (client.py:202-225). -/
def fork_gist_request (id_or_url : String) : Request :=
  ⟨"POST", "/" ++ convert id_or_url ++ "/forks"⟩

/-- Embeds `update_gist` (client.py:105-134) up to the dispatch of its
request: client.py:128 normalizes the id, client.py:132 builds the payload
(`update_gist_data`, which raises), and only then would
`Request("PATCH", f"/{gist_id}")` be dispatched. -/
def update_gist_call (id_or_url description : String) (files : FilesArg) :
    Except PyError Request := do
  let gist_id := convert id_or_url
  let _data ← update_gist_data description files
  .ok ⟨"PATCH", "/" ++ gist_id⟩

/-- Embeds the `Request` value constructed by `fetch_comments`
(client.py:254): `Request("GET", f"/{gist_id}/comments")`. -/
def fetch_comments_request (id_or_url : String) : Request :=
  ⟨"GET", "/" ++ convert id_or_url ++ "/comments"⟩

/-- Embeds the dispatch in `fetch_comments` (client.py:252-254): the call
`self.request(Request("GET", f"/{gist_id}/comments"), data)` passes `data`
as a second positional argument to `Client.request`, which accepts one. -/
def fetch_comments_call (id_or_url : String) (_per_page _page : Int) :
    Except PyError Request :=
  pyCallArgs request_positional_params 2 (fetch_comments_request id_or_url)

/-- Embeds the per-element decoding `Comment(comment)` in `fetch_comments`
(client.py:255): `Comment.__init__` (models.py:285) takes the two
positional parameters `client` and `data`, and the call supplies one. -/
def fetch_comments_decode_one (comment : Json) : Except PyError Json :=
  pyCallArgs Comment_init_positional_params 1 comment

/-- Embeds the `Request` value constructed by `post_comment`
(client.py:282): `Request("GET", f"/{gist_id}/comments")` — the method
string in the source is `"GET"`. -/
def post_comment_request (id_or_url : String) : Request :=
  ⟨"GET", "/" ++ convert id_or_url ++ "/comments"⟩

/-- Embeds the dispatch in `post_comment` (client.py:280-282): as in
`fetch_comments`, the payload `{"content": content}` is passed as a second
positional argument to `Client.request`. -/
def post_comment_call (id_or_url _content : String) : Except PyError Request :=
  pyCallArgs request_positional_params 2 (post_comment_request id_or_url)

/-- Embeds the request built by `update_comment` (client.py:285-311); the
dispatch on client.py:310 has the same extra-positional-argument defect as
`fetch_comments`, but the claims only inspect the path construction here. -/
def update_comment_request (id_or_url : String) (comment_id : Int) : Request :=
  ⟨"PATCH", "/" ++ convert id_or_url ++ "/comments/" ++ toString comment_id⟩

/-- Python values occurring in the expression `id-id_or_url`
(client.py:332): the builtin function `id` and the string argument. -/
inductive PyVal where
  | builtin (name : String)
  | str (s : String)
  | int (n : Int)
deriving DecidableEq

/-- Python binary subtraction on the values above: defined on two integers,
a `TypeError` on every other pair of operand types (in particular on
builtin function minus string). -/
def pySub : PyVal → PyVal → Except PyError PyVal
  | .int a, .int b => .ok (.int (a - b))
  | _, _ => .error (.typeError "unsupported operand types for subtraction")

/-- Embeds `delete_comment` (client.py:313-333): client.py:332 computes
`gist_id = convert(id-id_or_url)`, subtracting the string argument from the
`id` builtin, so the subtraction raises before `convert` or the request is
reached. -/
def delete_comment_call (id_or_url : String) (comment_id : Int) :
    Except PyError Request := do
  let arg ← pySub (.builtin "id") (.str id_or_url)
  match arg with
  | .str s => .ok ⟨"DELETE", "/" ++ convert s ++ "/comments/" ++ toString comment_id⟩
  | _ => .error (.typeError "convert expects a str")

/-! ## Entity convenience methods (models.py:172-259 and models.py:312-348)

Each convenience method is modelled by the `Client` operation it invokes —
a `ClientCall` — or the `PyError` the invocation raises.  The positional
parameter counts come from the corresponding `Client` method signatures. -/

/-- The `Client` operations a convenience method can delegate to, with the
arguments it passes. -/
inductive ClientCall where
  | update_gist (id_or_url description : String) (files : FilesArg)
  | delete_gist (id_or_url : String)
  | star_gist (id_or_url : String)
  | unstar_gist (id_or_url : String)
  | fork_gist (id_or_url : String)
  | post_comment (id_or_url content : String)
  | fetch_comments (id_or_url : String) (per_page page : Int)
  | update_comment (id_or_url : String) (comment_id : Int) (content : String)
  | delete_comment (id_or_url : String) (comment_id : Int)
deriving DecidableEq

/-- Embeds `Gist.update` (models.py:172-189):
`self.client.update_gist(self.id, description, files)` passes three
positional arguments, but every parameter of `Client.update_gist`
(client.py:105) is keyword-only (declared after a bare `*`), so the call
offers 3 positional arguments to 0 positional parameters. -/
def Gist.update_delegation (self_id description : String) (files : FilesArg) :
    Except PyError ClientCall :=
  pyCallArgs 0 3 (.update_gist self_id description files)

/-- Embeds `Gist.delete` (models.py:191-195):
`self.client.delete_gist(self.id)`; `delete_gist` (client.py:160) has the
one positional parameter `id_or_url`. -/
def Gist.delete_delegation (self_id : String) : Except PyError ClientCall :=
  pyCallArgs 1 1 (.delete_gist self_id)

/-- Embeds `Gist.star` (models.py:197-201). -/
def Gist.star_delegation (self_id : String) : Except PyError ClientCall :=
  pyCallArgs 1 1 (.star_gist self_id)

/-- Embeds `Gist.unstar` (models.py:203-207). -/
def Gist.unstar_delegation (self_id : String) : Except PyError ClientCall :=
  pyCallArgs 1 1 (.unstar_gist self_id)

/-- Embeds `Gist.fork` (models.py:209-213). -/
def Gist.fork_delegation (self_id : String) : Except PyError ClientCall :=
  pyCallArgs 1 1 (.fork_gist self_id)

/-- Embeds `Gist.comment` (models.py:215-234):
`self.client.post_comment(self.id, content)`; `post_comment`
(client.py:257) has the two positional parameters `id_or_url`, `content`. -/
def Gist.comment_delegation (self_id content : String) : Except PyError ClientCall :=
  pyCallArgs 2 2 (.post_comment self_id content)

/-- Embeds `Gist.fetch_comments` (models.py:236-257):
`self.client.fetch_comments(self.id, per_page, page)`; `fetch_comments`
(client.py:227) has the three positional parameters `id_or_url`,
`per_page`, `page`. -/
def Gist.fetch_comments_delegation (self_id : String) (per_page page : Int) :
    Except PyError ClientCall :=
  pyCallArgs 3 3 (.fetch_comments self_id per_page page)

/-- Embeds `Comment.update` (models.py:325-346):
`self.client.update_comment(self.gist_id, self.id, content)`;
`update_comment` (client.py:285) has three positional parameters. -/
def Comment.update_delegation (self_gist_id : String) (self_id : Int) (content : String) :
    Except PyError ClientCall :=
  pyCallArgs 3 3 (.update_comment self_gist_id self_id content)

/-- Embeds `Comment.delete` (models.py:312-323): its body is
`return await self.client` — no `Client` method is invoked at all, and
awaiting the `Client` object itself raises `TypeError` because `Client`
defines no `__await__`. -/
def Comment.delete_delegation (_self_gist_id : String) (_self_id : Int) :
    Except PyError ClientCall :=
  .error (.typeError "object Client cannot be used in await expression")


/-! ## Theorems -/

/-- Splitting a character list on slashes always yields at least one component. -/
theorem splitSlash_ne_nil (l : List Char) : splitSlash l ≠ [] := by
  cases l with
  | nil => simp [splitSlash]
  | cons c cs => by_cases hc : c = '/' <;> simp [splitSlash, hc]

/-- Splitting a list containing no slash yields the list as its only component. -/
theorem splitSlash_of_not_mem (l : List Char) (h : '/' ∉ l) : splitSlash l = [l] := by
  induction l with
  | nil => rfl
  | cons c cs ih =>
    have hc : c ≠ '/' := fun e => h (e ▸ List.mem_cons_self c cs)
    have hcs : '/' ∉ cs := fun e => h (List.mem_cons_of_mem c e)
    simp [splitSlash, fun e => hc (by simpa using e), ih hcs]

/-- Splitting a list containing a slash yields at least two components. -/
theorem splitSlash_two_le_length (l : List Char) (h : '/' ∈ l) :
    2 ≤ (splitSlash l).length := by
  induction l with
  | nil => cases h
  | cons c cs ih =>
    by_cases hc : c = '/'
    · have h1 : splitSlash cs ≠ [] := splitSlash_ne_nil cs
      have h2 : 1 ≤ (splitSlash cs).length := List.length_pos.mpr h1
      subst hc
      simp [splitSlash]
      omega
    · have hcs : '/' ∈ cs := by
        rcases List.mem_cons.mp h with h1 | h1
        · exact absurd h1.symm hc
        · exact h1
      cases hsp : splitSlash cs with
      | nil => exact absurd hsp (splitSlash_ne_nil cs)
      | cons s0 rest =>
        have h2 := ih hcs
        rw [hsp] at h2
        simp at h2
        simp [splitSlash, hc, hsp]
        omega

/-- The last component of `splitSlash l` is the final path segment of `l`: a
slash-free suffix of `l` that is either all of `l` or is preceded by a
slash. -/
theorem splitSlash_getLastD_spec (l : List Char) :
    ∃ b, l = b ++ (splitSlash l).getLastD []
      ∧ (∀ c ∈ (splitSlash l).getLastD [], c ≠ '/')
      ∧ (b = [] ∨ b.getLast? = some '/') := by
  induction l with
  | nil => exact ⟨[], rfl, by simp [splitSlash], Or.inl rfl⟩
  | cons c cs ih =>
    obtain ⟨b, hb, hall, hdisj⟩ := ih
    by_cases hc : c = '/'
    · subst hc
      have h0 : splitSlash ('/' :: cs) = [] :: splitSlash cs := by
        simp [splitSlash]
      have hseg : (splitSlash ('/' :: cs)).getLastD [] = (splitSlash cs).getLastD [] := by
        rw [h0, List.getLastD_cons]
      refine ⟨'/' :: b, ?_, ?_, Or.inr ?_⟩
      · rw [hseg]
        simpa using hb
      · rw [hseg]; exact hall
      · cases b with
        | nil => rfl
        | cons x xs =>
          rw [List.getLast?_cons_cons]
          rcases hdisj with h1 | h1
          · cases h1
          · exact h1
    · cases hsp : splitSlash cs with
      | nil => exact absurd hsp (splitSlash_ne_nil cs)
      | cons s0 rest =>
        have hshape : splitSlash (c :: cs) = (c :: s0) :: rest := by
          simp [splitSlash, hc, hsp]
        cases rest with
        | nil =>
          have hnomem : '/' ∉ cs := by
            intro hmem
            have := splitSlash_two_le_length cs hmem
            rw [hsp] at this
            simp at this
          have hs0 : s0 = cs := by
            have := splitSlash_of_not_mem cs hnomem
            rw [hsp] at this
            exact (List.cons.injEq _ _ _ _ ▸ this).1
          refine ⟨[], ?_, ?_, Or.inl rfl⟩
          · rw [hshape]
            simp [hs0]
          · rw [hshape]
            intro x hx
            simp at hx
            rcases hx with h1 | h1
            · subst h1; exact hc
            · subst hs0
              intro he
              exact hnomem (he ▸ h1)
        | cons r rs =>
          have hseg : (splitSlash (c :: cs)).getLastD [] = (splitSlash cs).getLastD [] := by
            rw [hshape, hsp]
            simp only [List.getLastD_cons]
          have hbne : b ≠ [] := by
            intro hbe
            subst hbe
            simp at hb
            have hnomem : '/' ∉ cs := by
              intro hmem
              have hmem2 : '/' ∈ (splitSlash cs).getLastD [] := by
                rw [List.getLastD_eq_getLast?, ← hb]; exact hmem
              exact (hall '/' hmem2) rfl
            have := splitSlash_of_not_mem cs hnomem
            rw [hsp] at this
            simp at this
          refine ⟨c :: b, ?_, ?_, Or.inr ?_⟩
          · rw [hseg]
            simpa using hb
          · rw [hseg]; exact hall
          · cases b with
            | nil => exact absurd rfl hbne
            | cons x xs =>
              rw [List.getLast?_cons_cons]
              rcases hdisj with h1 | h1
              · cases h1
              · exact h1


/-- C2 (amended): for every input string, `convert` returns the final path
segment — the possibly empty slash-free suffix of the string that either is
the whole string or follows the last `'/'` — when the string matches
`URL_REGEX`, and returns the input unchanged for every non-matching
string.  (The claim said the final NON-empty segment; the counterexample
below shows the code keeps an empty final segment.) -/
theorem convert_amended (s : String) :
    (urlRegexMatch s = false → convert s = s)
    ∧ (urlRegexMatch s = true →
        ∃ b, s.toList = b ++ (convert s).toList
          ∧ (∀ c ∈ (convert s).toList, c ≠ '/')
          ∧ (b = [] ∨ b.getLast? = some '/')) := by
  constructor
  · intro h
    simp [convert, h]
  · intro h
    have hs : (convert s).toList = (splitSlash s.toList).getLastD [] := by
      simp [convert, h, String.toList]
    rw [hs]
    exact splitSlash_getLastD_spec s.toList

/-- C2 (counterexample): the claim as stated is false.  The string
`"https://a/"` matches the URL pattern and its last non-empty path
component is `"a"`, but `convert` returns the empty string (Python
`split("/")[-1]` keeps the empty component after a trailing slash). -/
theorem convert_not_last_nonempty_counterexample :
    urlRegexMatch "https://a/" = true
    ∧ lastNonEmptySegmentSpec "https://a/" = "a"
    ∧ convert "https://a/" = "" := ⟨rfl, rfl, rfl⟩

/-- Witness for `convert_amended` at the non-URL `"abc123"` and at a gist URL. -/
theorem convert_amended_witness :
    convert "abc123" = "abc123"
    ∧ (∃ b, "https://gist.github.com/user/abc".toList
          = b ++ (convert "https://gist.github.com/user/abc").toList
        ∧ (∀ c ∈ (convert "https://gist.github.com/user/abc").toList, c ≠ '/')
        ∧ (b = [] ∨ b.getLast? = some '/')) :=
  ⟨(convert_amended "abc123").1 rfl, (convert_amended "https://gist.github.com/user/abc").2 rfl⟩

/-- C1: for every HTTP response, `request` returns the decoded JSON body
(`none` when the body cannot be decoded) and raises nothing whenever the
status is in `[200, 300)`; it raises `NotFound` exactly when the status is
404, `Forbidden` exactly when the status is 403, and `HTTPExeption` for
every other status outside `[200, 300)`; every raised failure carries the
original status code, reason phrase and raw body text unchanged. -/
theorem request_status_classification (status : Nat) (reason text : String) (j : Option Json) :
    (200 ≤ status → status < 300 → request status reason text j = .ok j)
    ∧ (request status reason text j = .error (.notFound ⟨status, reason, text⟩) ↔ status = 404)
    ∧ (request status reason text j = .error (.forbidden ⟨status, reason, text⟩) ↔ status = 403)
    ∧ (¬(200 ≤ status ∧ status < 300) → status ≠ 404 → status ≠ 403 →
        request status reason text j = .error (.httpExeption ⟨status, reason, text⟩)) := by
  refine ⟨?_, ?_, ?_, ?_⟩
  · intro h1 h2
    simp only [request]
    rw [if_pos ⟨h1, h2⟩]
  · constructor
    · intro h
      by_contra hne
      by_cases h2xx : 200 ≤ status ∧ status < 300
      · simp only [request] at h
        rw [if_pos h2xx] at h
        exact Except.noConfusion h
      · by_cases h403 : status = 403
        · simp only [request] at h
          rw [if_neg h2xx, if_neg (by omega : ¬status = 404), if_pos h403] at h
          simp at h
        · simp only [request] at h
          rw [if_neg h2xx, if_neg hne, if_neg h403] at h
          simp at h
    · intro h
      subst h
      rfl
  · constructor
    · intro h
      by_contra hne
      by_cases h2xx : 200 ≤ status ∧ status < 300
      · simp only [request] at h
        rw [if_pos h2xx] at h
        exact Except.noConfusion h
      · by_cases h404 : status = 404
        · simp only [request] at h
          rw [if_neg h2xx, if_pos h404] at h
          simp at h
        · simp only [request] at h
          rw [if_neg h2xx, if_neg h404, if_neg hne] at h
          simp at h
    · intro h
      subst h
      rfl
  · intro h1 h2 h3
    simp only [request]
    rw [if_neg h1, if_neg h2, if_neg h3]

/-- Witness for `request_status_classification` at statuses 204, 404, 403 and 500. -/
theorem request_status_classification_witness :
    request 204 "No Content" "" none = .ok none
    ∧ request 404 "Not Found" "nf" none = .error (.notFound ⟨404, "Not Found", "nf"⟩)
    ∧ request 403 "Forbidden" "fb" none = .error (.forbidden ⟨403, "Forbidden", "fb"⟩)
    ∧ request 500 "Err" "e" none = .error (.httpExeption ⟨500, "Err", "e"⟩) :=
  ⟨(request_status_classification 204 "No Content" "" none).1 (by decide) (by decide),
    ((request_status_classification 404 "Not Found" "nf" none).2.1).mpr rfl,
    ((request_status_classification 403 "Forbidden" "fb" none).2.2.1).mpr rfl,
    (request_status_classification 500 "Err" "e" none).2.2.2 (by decide) (by decide) (by decide)⟩

/-- C4: for every JSON object lacking the `id` field, constructing a `Gist`
or a `Comment` from it raises `TypeError`, regardless of which other fields
are present. -/
theorem init_missing_id_raises (data : List (String × Json))
    (h : List.lookup "id" data = none) :
    Gist_init data = .error (.typeError "Gist data must have an id.")
    ∧ Comment_init data = .error (.typeError "Comment data must have an id.") := by
  have hget : dataGet data "id" = Json.null := by simp [dataGet, h]
  exact ⟨by simp [Gist_init, hget, pyTruthy], by simp [Comment_init, hget, pyTruthy]⟩

/-- Witness for `init_missing_id_raises` on an object with only a description. -/
theorem init_missing_id_raises_witness :
    List.lookup "id" [("description", Json.str "d")] = none
    ∧ Gist_init [("description", Json.str "d")] = .error (.typeError "Gist data must have an id.")
    ∧ Comment_init [("description", Json.str "d")]
      = .error (.typeError "Comment data must have an id.") :=
  ⟨rfl, (init_missing_id_raises [("description", Json.str "d")] rfl).1,
    (init_missing_id_raises [("description", Json.str "d")] rfl).2⟩

/-- C10: constructing a `Gist` or `Comment` raises the decode error not only
when `id` is absent but for every falsy `id` value: an object whose `id`
field is present but equal to `0`, the empty string, or `null` is also
rejected — in particular a `Comment` with integer id `0` can never be
constructed. -/
theorem init_falsy_id_raises (data : List (String × Json))
    (h : List.lookup "id" data = some (Json.int 0)
      ∨ List.lookup "id" data = some (Json.str "")
      ∨ List.lookup "id" data = some Json.null) :
    Gist_init data = .error (.typeError "Gist data must have an id.")
    ∧ Comment_init data = .error (.typeError "Comment data must have an id.") := by
  have hget : pyTruthy (dataGet data "id") = false := by
    rcases h with h | h | h <;> simp [dataGet, h, pyTruthy]
  exact ⟨by simp [Gist_init, hget], by simp [Comment_init, hget]⟩

/-- Witness for `init_falsy_id_raises` on an object whose id is the integer 0. -/
theorem init_falsy_id_raises_witness :
    List.lookup "id" [("id", Json.int 0), ("body", Json.str "hi")] = some (Json.int 0)
    ∧ Gist_init [("id", Json.int 0), ("body", Json.str "hi")]
      = .error (.typeError "Gist data must have an id.")
    ∧ Comment_init [("id", Json.int 0), ("body", Json.str "hi")]
      = .error (.typeError "Comment data must have an id.") :=
  ⟨rfl, (init_falsy_id_raises [("id", Json.int 0), ("body", Json.str "hi")] (Or.inl rfl)).1,
    (init_falsy_id_raises [("id", Json.int 0), ("body", Json.str "hi")] (Or.inl rfl)).2⟩

/-- Inserting a key absent from a dict appends the new binding. -/
theorem dictInsert_of_not_mem (d : List (String × Json)) (k : String) (v : Json)
    (h : d.all (fun p => p.1 != k) = true) :
    dictInsert d k v = d ++ [(k, v)] := by
  have hany : d.any (fun p => p.1 == k) = false := by
    rw [List.any_eq_false]
    intro p hp
    have := (List.all_eq_true.mp h) p hp
    simpa using this
  simp [dictInsert, hany]

/-- Generalized induction for `filesToPayload`: folding files with pairwise
distinct filenames, none already bound in the accumulator, appends one
binding per file in order. -/
theorem filesToPayload_go (files : List File) :
    ∀ d : List (String × Json), (files.map File.filename).Nodup →
      (∀ f ∈ files, d.all (fun p => p.1 != f.filename) = true) →
      files.foldl
          (fun acc f => dictInsert acc f.filename (Json.obj [("content", Json.str f.content)])) d
        = d ++ files.map (fun f => (f.filename, Json.obj [("content", Json.str f.content)])) := by
  induction files with
  | nil => intro d _ _; simp
  | cons f fs ih =>
    intro d hnd hd
    rw [List.foldl_cons, dictInsert_of_not_mem d f.filename _ (hd f (List.mem_cons_self f fs))]
    rw [List.map_cons] at hnd
    have hnotin : f.filename ∉ fs.map File.filename := (List.nodup_cons.mp hnd).1
    have hd2 : ∀ g ∈ fs,
        (d ++ [(f.filename, Json.obj [("content", Json.str f.content)])]).all
          (fun p => p.1 != g.filename) = true := by
      intro g hg
      rw [List.all_append]
      simp only [Bool.and_eq_true]
      refine ⟨hd g (List.mem_cons_of_mem f hg), ?_⟩
      simp only [List.all_cons, List.all_nil, Bool.and_true]
      have hne : g.filename ≠ f.filename := by
        intro he
        exact hnotin (he ▸ List.mem_map_of_mem File.filename hg)
      simpa using hne.symm
    rw [ih _ (List.nodup_cons.mp hnd).2 hd2]
    simp

/-- C5 (amended): for every `File` (or list of `File`s) supplied to
`post_gist` whose filenames are pairwise distinct, the outgoing files
payload maps, in order, each filename to exactly
`{"content": content}` and nothing else — one entry per file, no other
`File` fields.  (For duplicate filenames the dict comprehension keeps a
single entry whose content comes from the last file, which is what the
counterexample below exhibits.) -/
theorem post_gist_files_amended (files : FilesArg)
    (h : (files.toList.map File.filename).Nodup) :
    post_gist_files files
      = files.toList.map (fun f => (f.filename, Json.obj [("content", Json.str f.content)])) := by
  have := filesToPayload_go files.toList [] h (fun f _ => rfl)
  simpa [post_gist_files, filesToPayload] using this

/-- Witness for `post_gist_files_amended` on two files with distinct names. -/
theorem post_gist_files_amended_witness :
    ((FilesArg.many [⟨"a.txt", "A", none, none, none, none⟩,
        ⟨"b.txt", "B", none, none, none, none⟩]).toList.map File.filename).Nodup
    ∧ post_gist_files (FilesArg.many [⟨"a.txt", "A", none, none, none, none⟩,
        ⟨"b.txt", "B", none, none, none, none⟩])
      = [("a.txt", Json.obj [("content", Json.str "A")]),
          ("b.txt", Json.obj [("content", Json.str "B")])] := by
  refine ⟨by decide, ?_⟩
  rw [post_gist_files_amended _ (by decide)]
  rfl

/-- C5 (counterexample): the claim as stated is false.  Two files that share
the filename `"a"` produce a payload with a single entry (the second
file's content), not one entry per file. -/
theorem post_gist_files_duplicate_counterexample :
    post_gist_files (FilesArg.many [⟨"a", "c1", none, none, none, none⟩,
        ⟨"a", "c2", none, none, none, none⟩])
      = [("a", Json.obj [("content", Json.str "c2")])]
    ∧ (post_gist_files (FilesArg.many [⟨"a", "c1", none, none, none, none⟩,
        ⟨"a", "c2", none, none, none, none⟩])).length
      ≠ (FilesArg.many [⟨"a", "c1", none, none, none, none⟩,
        ⟨"a", "c2", none, none, none, none⟩]).toList.length :=
  ⟨rfl, by decide⟩

/-- C3: the claim describes the intended payload
`{"description": ..., "files": {...}}`, but client.py:132 writes the dict
display `{"description": description, files: files}` whose second key is
the files dict itself; an unhashable dict key makes the construction raise
`TypeError` on every call, before any request is dispatched — a code bug
(the spec marks this defect as a bug, not a contract). -/
theorem update_gist_payload_typeerror :
    update_gist_data "d" (.one ⟨"a", "c", none, none, none, none⟩)
      = .error (.typeError "unhashable type")
    ∧ update_gist_call "abc123" "d" (.one ⟨"a", "c", none, none, none, none⟩)
      = .error (.typeError "unhashable type") := ⟨rfl, rfl⟩

/-- C6: seven of the nine entity convenience methods delegate to the
matching `Client` operation with the entity's own ids, but `Gist.update`
passes three positional arguments to the keyword-only `Client.update_gist`
(a `TypeError`), and `Comment.delete` never invokes
`Client.delete_comment` at all — its body awaits the `Client` object,
which raises `TypeError` — so the claim of pure delegation for every
method is a code bug. -/
theorem entity_delegation_broken :
    Gist.delete_delegation "g1" = .ok (.delete_gist "g1")
    ∧ Gist.star_delegation "g1" = .ok (.star_gist "g1")
    ∧ Gist.unstar_delegation "g1" = .ok (.unstar_gist "g1")
    ∧ Gist.fork_delegation "g1" = .ok (.fork_gist "g1")
    ∧ Gist.comment_delegation "g1" "hi" = .ok (.post_comment "g1" "hi")
    ∧ Gist.fetch_comments_delegation "g1" 30 1 = .ok (.fetch_comments "g1" 30 1)
    ∧ Comment.update_delegation "g1" 7 "hi" = .ok (.update_comment "g1" 7 "hi")
    ∧ Gist.update_delegation "g1" "d" (.many [])
      = .error (.typeError "positional argument count mismatch")
    ∧ Comment.delete_delegation "g1" 7
      = .error (.typeError "object Client cannot be used in await expression") :=
  ⟨rfl, rfl, rfl, rfl, rfl, rfl, rfl, rfl, rfl⟩

/-- C7: every other identifier-accepting operation pipes `id_or_url`
through `convert` and splices the result into the path, but
`delete_comment` computes `convert(id-id_or_url)` (client.py:332),
subtracting the string from the `id` builtin, which raises `TypeError`
before the normalizer or the request is reached — a code bug. -/
theorem delete_comment_convert_typeerror :
    delete_comment_call "abc123" 1
      = .error (.typeError "unsupported operand types for subtraction")
    ∧ fetch_gist_request "https://gist.github.com/user/abc123" = ⟨"GET", "/abc123"⟩
    ∧ delete_gist_request "abc123" = ⟨"DELETE", "/abc123"⟩
    ∧ star_gist_request "https://gist.github.com/user/abc123" = ⟨"PUT", "/abc123/star"⟩
    ∧ unstar_gist_request "abc123" = ⟨"DELETE", "/abc123/star"⟩
    ∧ fork_gist_request "abc123" = ⟨"POST", "/abc123/forks"⟩
    ∧ update_comment_request "https://gist.github.com/user/abc123" 1
      = ⟨"PATCH", "/abc123/comments/1"⟩ :=
  ⟨rfl, rfl, rfl, rfl, rfl, rfl, rfl⟩

/-- C8: the claim says `post_comment` issues a POST request to
`/gists/{id}/comments`; the source constructs the request with method
`"GET"` (client.py:282) and then passes the payload as an extra
positional argument to `Client.request`, raising `TypeError` — a code
bug. -/
theorem post_comment_wrong_method_typeerror :
    (post_comment_request "abc123").method = "GET"
    ∧ (post_comment_request "abc123").method ≠ "POST"
    ∧ post_comment_call "abc123" "hello"
      = .error (.typeError "positional argument count mismatch") :=
  ⟨rfl, by decide, rfl⟩

/-- C9: the claim says `fetch_comments` returns the decoded `Comment`s of
the response array in order; the source instead passes the query dict as an
extra positional argument to `Client.request` (client.py:254), raising
`TypeError` before any request, and its per-element decode
`Comment(comment)` (client.py:255) supplies one positional argument to the
two-parameter `Comment.__init__` — a code bug. -/
theorem fetch_comments_typeerror :
    fetch_comments_call "abc123" 100 2
      = .error (.typeError "positional argument count mismatch")
    ∧ fetch_comments_decode_one (Json.obj [("id", Json.int 5)])
      = .error (.typeError "positional argument count mismatch") :=
  ⟨rfl, rfl⟩

end Asyncgist
